import Mathlib

/-!
# effective-go snippets: variadic functions and implicit interfaces

A shallow embedding of `snippets/variadic/variadic.go`,
`snippets/interfaces/interfaces.go` and `snippets/main.go`.

* Go `int` is the 64-bit two's-complement integer of the usual platforms
  (amd64, arm64): values are `Int`s between `minInt` and `maxInt`, and `+`
  wraps through `wrapInt`.
* Standard output is the text written so far; a procedure is a function from the
  text before the call to a `Result`, which is either a normal return or a
  run-time panic, each carrying the text after the call.
* Go strings are modelled by `String`.
-/

/-! ## Native integers -/

/-- Smallest value of a Go `int` on a 64-bit platform: `-2^63`. -/
def minInt : Int := -9223372036854775808

/-- Largest value of a Go `int` on a 64-bit platform: `2^63 - 1`. -/
def maxInt : Int := 9223372036854775807

/-- The values a Go `int` can hold. -/
def IsInt (x : Int) : Prop := minInt ≤ x ∧ x ≤ maxInt

instance (x : Int) : Decidable (IsInt x) := by
  unfold IsInt; exact inferInstance

/-- Two's-complement reduction of a mathematical integer to a Go `int`:
the representative of `x` modulo `2^64` that lies in `[-2^63, 2^63 - 1]`. -/
def wrapInt (x : Int) : Int :=
  (x + 9223372036854775808) % 18446744073709551616 - 9223372036854775808

/-- Go `a + b` on `int` operands: the sum wraps around silently. -/
def addInt (a b : Int) : Int := wrapInt (a + b)

/-! ## Standard output and procedures -/

/-- The text written to standard output so far. -/
abbrev Stdout := String

/-- How a call ends: a normal return with a value, or a run-time panic; both
carry the standard output as the call left it. -/
inductive Result (α : Type) where
  | ok (val : α) (out : Stdout)
  | panic (msg : String) (out : Stdout)

/-- A Go procedure: from the standard output before the call to its result. -/
def Go (α : Type) : Type := Stdout → Result α

/-- Return `a` without touching standard output. -/
def Go.pure {α : Type} (a : α) : Go α := fun out => Result.ok a out

/-- Run `x`, then `f` on its value; a panic of `x` ends the sequence. -/
def Go.bind {α β : Type} (x : Go α) (f : α → Go β) : Go β := fun out =>
  match x out with
  | Result.ok a out1 => f a out1
  | Result.panic msg out1 => Result.panic msg out1

instance : Monad Go where
  pure := Go.pure
  bind := Go.bind

/-- A run-time panic with message `msg`. -/
def Go.panic {α : Type} (msg : String) : Go α := fun out => Result.panic msg out

/-- Append `s` to standard output (`os.Stdout.Write`, whose error the callers drop). -/
def Stdout.write (s : String) : Go Unit := fun out => Result.ok () (out ++ s)

/-! ## The part of package `fmt` the snippets call -/

namespace fmt

/-- An operand of a print function: the snippets pass strings and `int`s only. -/
inductive Arg where
  | str (s : String)
  | int (n : Int)

/-- Default format (`%v`) of an operand: a string as it is, an `int` in decimal
with a leading `-` when negative. -/
def Arg.format : Arg → String
  | Arg.str s => s
  | Arg.int n => toString n

/-- Go `fmt.Sprintln`: the operands in their default format, always separated by one
space, followed by a newline. -/
def Sprintln (args : List Arg) : String :=
  " ".intercalate (args.map Arg.format) ++ "\n"

/-- Go `fmt.Println(args...)`. -/
def Println (args : List Arg) : Go Unit := Stdout.write (Sprintln args)

/-- Go `fmt.Print(s)` with a single string operand: the string as it is. -/
def Print (s : String) : Go Unit := Stdout.write s

/-- Go `fmt.Sprintf` on the characters of the format: `%s` and `%v` consume the next
operand and write it in its default format, `%%` writes a percent sign, every
other character is copied. The snippets use no other verb and pass exactly as
many operands as there are verbs. -/
def Sprintf.go : List Char → List Arg → String
  | [], _ => ""
  | '%' :: 's' :: rest, a :: args => a.format ++ Sprintf.go rest args
  | '%' :: 'v' :: rest, a :: args => a.format ++ Sprintf.go rest args
  | '%' :: '%' :: rest, args => "%" ++ Sprintf.go rest args
  | c :: rest, args => String.singleton c ++ Sprintf.go rest args

/-- Go `fmt.Sprintf(format, args...)`. -/
def Sprintf (format : String) (args : List Arg) : String := Sprintf.go format.data args

/-- Go `fmt.Printf(format, args...)`. -/
def Printf (format : String) (args : List Arg) : Go Unit :=
  Stdout.write (Sprintf format args)

end fmt

/-! ## Package `variadic` -/

namespace variadic

/-- Go `func Sum(numbers ...int) int`: `total := 0`, then `total += n` for each
`n` of `numbers` in order, then `return total`. -/
def Sum (numbers : List Int) : Int :=
  numbers.foldl (fun total n => addInt total n) 0

/-- The `for i, item := range items` loop of `PrintItems`, at index `i` with the
items from `i` on still to print. -/
def PrintItems.loop : Nat → List String → Go Unit
  | _, [] => pure ()
  | i, item :: rest => do
    if i > 0 then
      fmt.Print ", "
    fmt.Print item
    PrintItems.loop (i + 1) rest

/-- Go `func PrintItems(label string, items ...string)`. -/
def PrintItems (label : String) (items : List String) : Go Unit := do
  fmt.Printf "%s: [" [fmt.Arg.str label]
  PrintItems.loop 0 items
  fmt.Println [fmt.Arg.str "]"]

/-- Go `func Run()` of package `variadic`. -/
def Run : Go Unit := do
  fmt.Println [fmt.Arg.str "=== Variadic Functions ==="]
  fmt.Println []
  fmt.Println [fmt.Arg.str "Sum():", fmt.Arg.int (Sum [])]
  fmt.Println [fmt.Arg.str "Sum(1):", fmt.Arg.int (Sum [1])]
  fmt.Println [fmt.Arg.str "Sum(1, 2, 3):", fmt.Arg.int (Sum [1, 2, 3])]
  fmt.Println [fmt.Arg.str "Sum(1, 2, 3, 4, 5):", fmt.Arg.int (Sum [1, 2, 3, 4, 5])]
  fmt.Println []
  let values : List Int := [10, 20, 30, 40]
  fmt.Println [fmt.Arg.str "Sum(values...):", fmt.Arg.int (Sum values)]
  fmt.Println []
  PrintItems "Fruits" ["apple", "banana", "cherry"]

end variadic

/-! ## Package `interfaces` -/

namespace interfaces

/-- The method set `type Move interface { Use() }` asks of a type. -/
class HasUse (T : Type) where
  Use : T → Go Unit

/-- A value of interface type `Move`: the nil interface, or a dynamic value of
some type with a `Use()` method, seen through that method. -/
inductive Move where
  | nil
  | val (Use : Go Unit)

/-- Conversion of a value of a type with a `Use()` method to `Move` (implicit in Go). -/
def Move.of {T : Type} [HasUse T] (v : T) : Move := Move.val (HasUse.Use v)

/-- The call `m.Use()` on an interface value: a nil interface has no method to
call and the call panics, otherwise the method of the dynamic value runs. -/
def Move.Use : Move → Go Unit
  | Move.nil => Go.panic "runtime error: invalid memory address or nil pointer dereference"
  | Move.val use => use

/-- Go `type Thunderbolt struct{}`. -/
structure Thunderbolt where

/-- Go `func (t Thunderbolt) Use()`. -/
def Thunderbolt.Use (_t : Thunderbolt) : Go Unit :=
  fmt.Println [fmt.Arg.str "Pikachu used Thunderbolt!"]

instance : HasUse Thunderbolt := ⟨Thunderbolt.Use⟩

/-- Go `type QuickAttack struct{}`. -/
structure QuickAttack where

/-- Go `func (q QuickAttack) Use()`. -/
def QuickAttack.Use (_q : QuickAttack) : Go Unit :=
  fmt.Println [fmt.Arg.str "Eevee used Quick Attack!"]

instance : HasUse QuickAttack := ⟨QuickAttack.Use⟩

/-- Go `type Flamethrower struct{}`. -/
structure Flamethrower where

/-- Go `func (f Flamethrower) Use()`. -/
def Flamethrower.Use (_f : Flamethrower) : Go Unit :=
  fmt.Println [fmt.Arg.str "Charizard used Flamethrower!"]

instance : HasUse Flamethrower := ⟨Flamethrower.Use⟩

/-- Go `func PerformMove(m Move)`. -/
def PerformMove (m : Move) : Go Unit :=
  m.Use

/-- Go `func Run()` of package `interfaces`. -/
def Run : Go Unit := do
  fmt.Println [fmt.Arg.str "=== Implicit Interfaces ==="]
  fmt.Println []
  let t : Thunderbolt := Thunderbolt.mk
  let q : QuickAttack := QuickAttack.mk
  let f : Flamethrower := Flamethrower.mk
  PerformMove (Move.of t)
  PerformMove (Move.of q)
  PerformMove (Move.of f)

end interfaces

/-! ## Package `main` -/

namespace snippets

/-- Go `func main()`. -/
def main : Go Unit := do
  variadic.Run
  fmt.Println []
  interfaces.Run

end snippets

/-- The text a procedure leaves on standard output when started on `out`. -/
def Result.output {α : Type} : Result α → Stdout
  | Result.ok _ out => out
  | Result.panic _ out => out


/-- The procedure `p` returns normally and appends exactly `text` to standard
output, whatever was written before. -/
def Writes (p : Go Unit) (text : String) : Prop :=
  ∀ out, p out = Result.ok () (out ++ text)

/-- Number of newline characters in a string. -/
def newlines (s : String) : Nat := s.data.count '\n'

/-! ## Lemmas on native integers -/

theorem wrapInt_isInt (x : Int) : IsInt (wrapInt x) := by
  unfold IsInt wrapInt minInt maxInt
  omega

theorem wrapInt_of_isInt {x : Int} (h : IsInt x) : wrapInt x = x := by
  unfold IsInt minInt maxInt at h
  unfold wrapInt
  omega

theorem wrapInt_add_wrapInt_left (a b : Int) : wrapInt (wrapInt a + b) = wrapInt (a + b) := by
  unfold wrapInt
  omega

theorem wrapInt_zero : wrapInt 0 = 0 := by
  unfold wrapInt
  omega

namespace variadic

theorem foldl_addInt (numbers : List Int) (total : Int) :
    numbers.foldl (fun total n => addInt total n) (wrapInt total)
      = wrapInt (total + numbers.sum) := by
  induction numbers generalizing total with
  | nil => simp
  | cons n rest ih =>
    have h := ih (total + n)
    simp only [List.foldl_cons, List.sum_cons, addInt] at h ⊢
    rw [wrapInt_add_wrapInt_left, h, add_assoc]

/-- The loop of `Sum` computes the arithmetic sum reduced to a native `int`. -/
theorem Sum_eq_wrapInt_sum (numbers : List Int) : Sum numbers = wrapInt numbers.sum := by
  have h := foldl_addInt numbers 0
  rw [wrapInt_zero, zero_add] at h
  exact h

end variadic

/-! ## Lemmas on procedures -/

theorem Writes.write (s : String) : Writes (Stdout.write s) s :=
  fun _ => rfl

theorem Writes.pure : Writes (pure ()) "" := by
  intro out
  show Result.ok () out = Result.ok () (out ++ "")
  rw [String.append_empty]

theorem Writes.bind {p : Go Unit} {q : Unit → Go Unit} {s t : String}
    (hp : Writes p s) (hq : Writes (q ()) t) : Writes (p >>= q) (s ++ t) := by
  intro out
  show Go.bind p q out = _
  unfold Go.bind
  rw [hp out]
  show q () (out ++ s) = _
  rw [hq (out ++ s), String.append_assoc]

theorem Writes.congr {p : Go Unit} {s t : String} (h : Writes p s) (e : s = t) :
    Writes p t :=
  e ▸ h

theorem Writes.println (args : List fmt.Arg) : Writes (fmt.Println args) (fmt.Sprintln args) :=
  Writes.write _

theorem Writes.print (s : String) : Writes (fmt.Print s) s :=
  Writes.write _

theorem Writes.printf (format : String) (args : List fmt.Arg) :
    Writes (fmt.Printf format args) (fmt.Sprintf format args) :=
  Writes.write _

namespace variadic

theorem Sprintf_label (label : String) :
    fmt.Sprintf "%s: [" [fmt.Arg.str label] = label ++ ": [" := by
  apply String.ext
  simp [fmt.Sprintf, fmt.Sprintf.go, fmt.Arg.format]

/-- After the first item, the loop writes each remaining item behind a separator:
started behind `acc`, it completes `acc` to the separator-joined text. -/
theorem loop_pos (items : List String) :
    ∀ (i : Nat), 0 < i → ∀ acc : String,
      ∃ t, Writes (PrintItems.loop i items) t ∧
        acc ++ t = String.intercalate.go acc ", " items := by
  induction items with
  | nil =>
    intro i _ acc
    exact ⟨"", Writes.pure, by simp [String.intercalate.go]⟩
  | cons item rest ih =>
    intro i hi acc
    obtain ⟨t, ht, e⟩ := ih (i + 1) (Nat.succ_pos i) (acc ++ ", " ++ item)
    refine ⟨", " ++ (item ++ t), ?_, ?_⟩
    · unfold PrintItems.loop
      rw [if_pos hi]
      exact Writes.bind (Writes.print _) (Writes.bind (Writes.print _) ht)
    · rw [String.intercalate.go, ← e]
      simp only [String.append_assoc]

/-- The whole loop writes the items joined by `", "`. -/
theorem loop_zero (items : List String) :
    Writes (PrintItems.loop 0 items) (", ".intercalate items) := by
  cases items with
  | nil => exact Writes.pure
  | cons item rest =>
    obtain ⟨t, ht, e⟩ := loop_pos rest 1 Nat.one_pos item
    unfold PrintItems.loop
    rw [if_neg (Nat.lt_irrefl 0)]
    refine Writes.congr (Writes.bind Writes.pure (Writes.bind (Writes.print _) ht)) ?_
    rw [String.empty_append, e]
    rfl

theorem PrintItems_writes (label : String) (items : List String) :
    Writes (PrintItems label items)
      (label ++ ": [" ++ ", ".intercalate items ++ "]" ++ "\n") := by
  unfold PrintItems
  refine Writes.congr
    (Writes.bind (Writes.printf _ _) (Writes.bind (loop_zero items) (Writes.println _))) ?_
  rw [Sprintf_label]
  simp [fmt.Sprintln, fmt.Arg.format, String.intercalate, String.intercalate.go,
    String.append_assoc]

end variadic

/-! ## Summation -/

namespace variadic

/-- C1 (as stated, refuted): with both arguments valid `int`s, `Sum(maxInt, 1)`
returns `minInt`, while the arithmetic sum of the two is `2^63`. -/
theorem C1_Sum_overflow_counterexample :
    IsInt 9223372036854775807 ∧ IsInt 1 ∧
      Sum [9223372036854775807, 1] = -9223372036854775808 ∧
      List.sum [(9223372036854775807 : Int), 1] = 9223372036854775808 ∧
      Sum [9223372036854775807, 1] ≠ List.sum [(9223372036854775807 : Int), 1] := by
  decide

/-- C1 (amended): for every finite sequence `S` of integers whose arithmetic sum
is a valid `int`, `Sum(S...)` equals the arithmetic sum of the elements of `S`;
`Sum()` is `0`, and the tests hold: `Sum(1) = 1`, `Sum(1,2,3) = 6`,
`Sum(10,20,30,40) = 100`. -/
theorem C1_Sum_eq_sum :
    (∀ S : List Int, IsInt S.sum → Sum S = S.sum) ∧
      Sum [] = 0 ∧ Sum [1] = 1 ∧ Sum [1, 2, 3] = 6 ∧ Sum [10, 20, 30, 40] = 100 := by
  refine ⟨fun S h => ?_, by decide, by decide, by decide, by decide⟩
  rw [Sum_eq_wrapInt_sum, wrapInt_of_isInt h]

/-- C1 witness: the amended claim at `Sum(maxInt, 1, -1)`, whose sum `maxInt` is
a valid `int`. -/
theorem C1_Sum_eq_sum_witness :
    IsInt (List.sum [(9223372036854775807 : Int), 1, -1]) ∧
      Sum [9223372036854775807, 1, -1] = List.sum [(9223372036854775807 : Int), 1, -1] :=
  ⟨by decide, C1_Sum_eq_sum.1 [9223372036854775807, 1, -1] (by decide)⟩

/-- C2: `Sum` is order-independent: when `T` is a permutation of `S`,
`Sum(S...) = Sum(T...)`, whether or not the running total wraps around during
either loop. -/
theorem C2_Sum_perm (S T : List Int) (h : S.Perm T) : Sum S = Sum T := by
  rw [Sum_eq_wrapInt_sum, Sum_eq_wrapInt_sum, h.sum_eq]

/-- C2 witness: `[maxInt, 1, -1]` makes the running total wrap to `minInt`
after two steps, its permutation `[1, -1, maxInt]` never wraps; both give `maxInt`. -/
theorem C2_Sum_perm_witness :
    List.Perm [(9223372036854775807 : Int), 1, -1] [1, -1, 9223372036854775807] ∧
      addInt 9223372036854775807 1 = minInt ∧
      Sum [9223372036854775807, 1, -1] = Sum [1, -1, 9223372036854775807] :=
  ⟨by decide, by decide, C2_Sum_perm _ _ (by decide)⟩

end variadic

/-! ## Formatted list printing -/

namespace variadic

/-- C3: for every label and every sequence of items, `PrintItems(label, items...)`
returns normally and appends to standard output exactly
`label ++ ": [" ++ (items joined by ", ") ++ "]"` followed by a newline; with no
items that is `label ++ ": []"` and a newline, and
`PrintItems("Fruits","apple","banana","cherry")` writes
`Fruits: [apple, banana, cherry]`. -/
theorem C3_PrintItems_output :
    (∀ (label : String) (items : List String) (out : Stdout),
        PrintItems label items out
          = Result.ok () (out ++ (label ++ ": [" ++ ", ".intercalate items ++ "]" ++ "\n"))) ∧
      (∀ (label : String) (out : Stdout),
        PrintItems label [] out = Result.ok () (out ++ (label ++ ": []" ++ "\n"))) ∧
      PrintItems "Fruits" ["apple", "banana", "cherry"] ""
        = Result.ok () "Fruits: [apple, banana, cherry]\n" := by
  refine ⟨fun label items => PrintItems_writes label items, fun label out => ?_, rfl⟩
  rw [PrintItems_writes label [] out]
  simp [String.intercalate, String.append_assoc]

theorem newlines_append (s t : String) : newlines (s ++ t) = newlines s + newlines t := by
  simp [newlines]

theorem newlines_intercalate_go (items : List String) :
    ∀ acc : String, newlines (String.intercalate.go acc ", " items)
      = newlines acc + (items.map newlines).sum := by
  induction items with
  | nil => intro acc; simp [String.intercalate.go]
  | cons item rest ih =>
    intro acc
    rw [String.intercalate.go, ih, newlines_append, newlines_append]
    have h : newlines ", " = 0 := by decide
    simp only [List.map_cons, List.sum_cons, h]
    omega

theorem newlines_intercalate (items : List String) :
    newlines (", ".intercalate items) = (items.map newlines).sum := by
  cases items with
  | nil => simp [String.intercalate, newlines]
  | cons item rest =>
    rw [String.intercalate, newlines_intercalate_go]
    simp

/-- C4 (as stated, refuted): `PrintItems("a\nb")` writes `a`, a newline,
`b: []` and a newline: two newline characters, not one. -/
theorem C4_PrintItems_newline_counterexample :
    PrintItems "a\nb" [] "" = Result.ok () "a\nb: []\n" ∧
      newlines (PrintItems "a\nb" [] "").output = 2 ∧
      newlines (PrintItems "a\nb" [] "").output ≠ 1 :=
  ⟨rfl, by decide, by decide⟩

/-- C4 (amended): for every label and every sequence of items, the output of
`PrintItems` ends with a newline character and holds one newline character more
than the label and the items together; so when neither the label nor any item
holds a newline character, it is exactly one line: one newline in total, at the end. -/
theorem C4_PrintItems_one_line (label : String) (items : List String) :
    ∃ line : String,
      (∀ out : Stdout, PrintItems label items out = Result.ok () (out ++ (line ++ "\n"))) ∧
      newlines (line ++ "\n") = 1 + newlines label + (items.map newlines).sum ∧
      (newlines label = 0 → (∀ item ∈ items, newlines item = 0) →
        newlines (line ++ "\n") = 1 ∧ newlines line = 0) := by
  have hcount : newlines (label ++ ": [" ++ ", ".intercalate items ++ "]")
      = newlines label + (items.map newlines).sum := by
    have h1 : newlines ": [" = 0 := by decide
    have h2 : newlines "]" = 0 := by decide
    rw [newlines_append, newlines_append, newlines_append, newlines_intercalate, h1, h2]
    omega
  have hnl : newlines "\n" = 1 := by decide
  refine ⟨label ++ ": [" ++ ", ".intercalate items ++ "]", PrintItems_writes label items, ?_, ?_⟩
  · rw [newlines_append, hcount, hnl]
    omega
  · intro hl hi
    have hz : (items.map newlines).sum = 0 := by
      apply List.sum_eq_zero
      intro n hn
      obtain ⟨item, hmem, rfl⟩ := List.mem_map.1 hn
      exact hi item hmem
    rw [newlines_append, hcount, hnl, hl, hz]
    exact ⟨rfl, rfl⟩

/-- C4 witness: the fruit list of the test has no newline in label or items, and
its output is the single line `Fruits: [apple, banana, cherry]`. -/
theorem C4_PrintItems_one_line_witness :
    newlines "Fruits" = 0 ∧ (∀ item ∈ ["apple", "banana", "cherry"], newlines item = 0) ∧
      ∃ line : String,
        (∀ out : Stdout, PrintItems "Fruits" ["apple", "banana", "cherry"] out
          = Result.ok () (out ++ (line ++ "\n"))) ∧
        newlines (line ++ "\n") = 1 ∧ newlines line = 0 := by
  obtain ⟨line, hw, _, h⟩ := C4_PrintItems_one_line "Fruits" ["apple", "banana", "cherry"]
  have h0 : newlines "Fruits" = 0 := by decide
  have hi : ∀ item ∈ ["apple", "banana", "cherry"], newlines item = 0 := by decide
  exact ⟨h0, hi, line, hw, h h0 hi⟩

end variadic

/-! ## Capability dispatch -/

namespace interfaces

/-- C5: for every value `v` of any type with a `Use()` method, `PerformMove(v)`
is the call `v.Use()` and nothing else: from every standard output it ends the
same way and leaves the same text; likewise for every non-nil `Move` value. -/
theorem C5_PerformMove_is_Use :
    (∀ (T : Type) [HasUse T] (v : T) (out : Stdout),
        PerformMove (Move.of v) out = HasUse.Use v out) ∧
      (∀ (use : Go Unit) (out : Stdout), PerformMove (Move.val use) out = use out) :=
  ⟨fun _ _ _ _ => rfl, fun _ _ => rfl⟩

/-- C6: dispatching `Thunderbolt{}`, `QuickAttack{}` and `Flamethrower{}` appends
exactly `Pikachu used Thunderbolt!`, `Eevee used Quick Attack!` and
`Charizard used Flamethrower!`, each followed by one newline, and
`Thunderbolt{}.Use()` called directly appends the same line as dispatching it. -/
theorem C6_shipped_messages (out : Stdout) :
    PerformMove (Move.of Thunderbolt.mk) out
        = Result.ok () (out ++ "Pikachu used Thunderbolt!\n") ∧
      PerformMove (Move.of QuickAttack.mk) out
        = Result.ok () (out ++ "Eevee used Quick Attack!\n") ∧
      PerformMove (Move.of Flamethrower.mk) out
        = Result.ok () (out ++ "Charizard used Flamethrower!\n") ∧
      Thunderbolt.Use Thunderbolt.mk out
        = Result.ok () (out ++ "Pikachu used Thunderbolt!\n") :=
  ⟨rfl, rfl, rfl, rfl⟩

end interfaces

/-! ## Totality -/

/-- C7 (as stated, refuted): the nil interface value is a `Move` that can be
passed to `PerformMove`, and the call panics. -/
theorem C7_PerformMove_nil_counterexample :
    interfaces.PerformMove interfaces.Move.nil ""
        = Result.panic "runtime error: invalid memory address or nil pointer dereference" "" ∧
      ¬ ∃ out : Stdout, interfaces.PerformMove interfaces.Move.nil "" = Result.ok () out :=
  ⟨rfl, fun ⟨_, h⟩ => Result.noConfusion h⟩

/-- C7 (amended): `Sum` returns an `int` for every input, `PrintItems` returns
normally for every label, item sequence and standard output, and `PerformMove`
returns normally for every non-nil `Move` value whose `Use()` returns normally,
as it does for the three shipped implementers. -/
theorem C7_total :
    (∀ S : List Int, ∃ r : Int, variadic.Sum S = r ∧ IsInt r) ∧
      (∀ (label : String) (items : List String) (out : Stdout),
        ∃ out1 : Stdout, variadic.PrintItems label items out = Result.ok () out1) ∧
      (∀ (use : Go Unit) (out out1 : Stdout), use out = Result.ok () out1 →
        interfaces.PerformMove (interfaces.Move.val use) out = Result.ok () out1) ∧
      (∀ out : Stdout, ∃ out1 : Stdout,
        interfaces.PerformMove (interfaces.Move.of interfaces.Thunderbolt.mk) out
          = Result.ok () out1) ∧
      (∀ out : Stdout, ∃ out1 : Stdout,
        interfaces.PerformMove (interfaces.Move.of interfaces.QuickAttack.mk) out
          = Result.ok () out1) ∧
      (∀ out : Stdout, ∃ out1 : Stdout,
        interfaces.PerformMove (interfaces.Move.of interfaces.Flamethrower.mk) out
          = Result.ok () out1) := by
  refine ⟨fun S => ⟨_, rfl, ?_⟩, fun label items out => ⟨_, variadic.PrintItems_writes label items out⟩,
    fun _ _ _ h => h, fun out => ⟨_, rfl⟩, fun out => ⟨_, rfl⟩, fun out => ⟨_, rfl⟩⟩
  rw [variadic.Sum_eq_wrapInt_sum]
  exact wrapInt_isInt _

/-- C7 witness: `Thunderbolt{}.Use()` returns normally from the empty standard
output, hence so does dispatching it. -/
theorem C7_total_witness :
    interfaces.Thunderbolt.Use interfaces.Thunderbolt.mk ""
        = Result.ok () "Pikachu used Thunderbolt!\n" ∧
      interfaces.PerformMove
          (interfaces.Move.val (interfaces.Thunderbolt.Use interfaces.Thunderbolt.mk)) ""
        = Result.ok () "Pikachu used Thunderbolt!\n" :=
  ⟨rfl, C7_total.2.2.1 _ "" _ rfl⟩

/-! ## Demo orchestration -/

set_option maxRecDepth 8192

theorem variadic_Run_writes :
    Writes variadic.Run
      "=== Variadic Functions ===\n\nSum(): 0\nSum(1): 1\nSum(1, 2, 3): 6\nSum(1, 2, 3, 4, 5): 15\n\nSum(values...): 100\n\nFruits: [apple, banana, cherry]\n" := by
  unfold variadic.Run
  exact Writes.congr
    (Writes.bind (Writes.println _) (Writes.bind (Writes.println _)
      (Writes.bind (Writes.println _) (Writes.bind (Writes.println _)
        (Writes.bind (Writes.println _) (Writes.bind (Writes.println _)
          (Writes.bind (Writes.println _) (Writes.bind (Writes.println _)
            (Writes.bind (Writes.println _) (variadic.PrintItems_writes _ _))))))))))
    rfl

theorem interfaces_Run_writes :
    Writes interfaces.Run
      "=== Implicit Interfaces ===\n\nPikachu used Thunderbolt!\nEevee used Quick Attack!\nCharizard used Flamethrower!\n" := by
  unfold interfaces.Run
  exact Writes.congr
    (Writes.bind (Writes.println _) (Writes.bind (Writes.println _)
      (Writes.bind (Writes.println _) (Writes.bind (Writes.println _) (Writes.println _)))))
    rfl

/-- C8: `variadic.Run()` returns normally and appends exactly the header, a blank
line, the four `Sum` lines for 0, 1, 3 and 5 arguments, a blank line, the
spread-sum line, a blank line and the fruit list line, each ended by a newline. -/
theorem C8_variadic_Run_output (out : Stdout) :
    variadic.Run out = Result.ok () (out ++
      "=== Variadic Functions ===\n\nSum(): 0\nSum(1): 1\nSum(1, 2, 3): 6\nSum(1, 2, 3, 4, 5): 15\n\nSum(values...): 100\n\nFruits: [apple, banana, cherry]\n") :=
  variadic_Run_writes out

/-- C9: `interfaces.Run()` returns normally and appends exactly the header line,
a blank line, and the three messages of `Thunderbolt`, `QuickAttack` and
`Flamethrower` in that order, each once and each ended by a newline. -/
theorem C9_interfaces_Run_output (out : Stdout) :
    interfaces.Run out = Result.ok () (out ++
      "=== Implicit Interfaces ===\n\nPikachu used Thunderbolt!\nEevee used Quick Attack!\nCharizard used Flamethrower!\n") :=
  interfaces_Run_writes out

/-- C10: the output of `main` is the output of `variadic.Run()`, one blank line,
then the output of `interfaces.Run()`, with nothing before, between or after;
it is one fixed text, the same from every standard output. -/
theorem C10_main_output :
    ∃ v i : String,
      (∀ out : Stdout, variadic.Run out = Result.ok () (out ++ v)) ∧
      (∀ out : Stdout, interfaces.Run out = Result.ok () (out ++ i)) ∧
      (∀ out : Stdout, snippets.main out = Result.ok () (out ++ (v ++ "\n" ++ i))) ∧
      snippets.main "" = Result.ok ()
        "=== Variadic Functions ===\n\nSum(): 0\nSum(1): 1\nSum(1, 2, 3): 6\nSum(1, 2, 3, 4, 5): 15\n\nSum(values...): 100\n\nFruits: [apple, banana, cherry]\n\n=== Implicit Interfaces ===\n\nPikachu used Thunderbolt!\nEevee used Quick Attack!\nCharizard used Flamethrower!\n" := by
  refine ⟨_, _, variadic_Run_writes, interfaces_Run_writes, ?_, rfl⟩
  unfold snippets.main
  exact Writes.congr
    (Writes.bind variadic_Run_writes (Writes.bind (Writes.println _) interfaces_Run_writes))
    (by rw [String.append_assoc]; rfl)

/-! ## Overflow behaviour of summation -/

theorem wrapInt_sub_emod (x : Int) : (wrapInt x - x) % 18446744073709551616 = 0 := by
  unfold wrapInt
  omega

theorem wrapInt_add_wrapInt (a b : Int) : wrapInt (wrapInt a + wrapInt b) = wrapInt (a + b) := by
  unfold wrapInt
  omega

namespace variadic

/-- C11: overflow in `Sum` is not detected and wraps around: for every sequence
`S`, `Sum(S...)` is a valid `int` congruent to the mathematical sum of `S`
modulo `2^64`, that is the sum reduced into `[-2^63, 2^63 - 1]`; it does not
saturate: one past `maxInt` comes out as `minInt`, one below `minInt` as `maxInt`. -/
theorem C11_Sum_wraps :
    (∀ S : List Int,
        IsInt (Sum S) ∧ (Sum S - S.sum) % 18446744073709551616 = 0 ∧
          Sum S = wrapInt S.sum) ∧
      Sum [maxInt, 1] = minInt ∧ Sum [minInt, -1] = maxInt := by
  refine ⟨fun S => ?_, by decide, by decide⟩
  rw [Sum_eq_wrapInt_sum]
  exact ⟨wrapInt_isInt _, wrapInt_sub_emod _, rfl⟩

/-- C12: for every sequence `S` whose mathematical sum is a valid `int`,
`Sum(S...)` equals that sum exactly, also when the sum of a prefix of `S` is not
a valid `int`. -/
theorem C12_Sum_exact (S : List Int) (h : IsInt S.sum) : Sum S = S.sum := by
  rw [Sum_eq_wrapInt_sum, wrapInt_of_isInt h]

/-- C12 witness: in `Sum(maxInt, 5, -7)` every argument is a valid `int`, the
sum of the first two is not, the running total wraps there, and the result is
still the mathematical sum `maxInt - 2`. -/
theorem C12_Sum_exact_witness :
    (∀ n ∈ [maxInt, 5, -7], IsInt n) ∧
      ¬ IsInt (List.sum (List.take 2 [maxInt, 5, -7])) ∧
      Sum (List.take 2 [maxInt, 5, -7]) ≠ List.sum (List.take 2 [maxInt, 5, -7]) ∧
      IsInt (List.sum [maxInt, 5, -7]) ∧
      Sum [maxInt, 5, -7] = List.sum [maxInt, 5, -7] ∧
      Sum [maxInt, 5, -7] = 9223372036854775805 :=
  ⟨by decide, by decide, by decide, by decide,
    C12_Sum_exact [maxInt, 5, -7] (by decide), by decide⟩

/-- C13: `Sum` turns concatenation into native addition: for all sequences `A`
and `B`, `Sum` of `A` followed by `B` is `Sum(A...) + Sum(B...)` with the wrapping
`+` of `int`; `Sum(x)` is `x` for every `int` `x`, and appending a `0` does not
change the result. -/
theorem C13_Sum_append :
    (∀ A B : List Int, Sum (A ++ B) = addInt (Sum A) (Sum B)) ∧
      (∀ x : Int, IsInt x → Sum [x] = x) ∧
      (∀ A : List Int, Sum (A ++ [0]) = Sum A) := by
  refine ⟨fun A B => ?_, fun x hx => ?_, fun A => ?_⟩
  · rw [Sum_eq_wrapInt_sum, Sum_eq_wrapInt_sum, Sum_eq_wrapInt_sum, List.sum_append]
    exact (wrapInt_add_wrapInt _ _).symm
  · rw [Sum_eq_wrapInt_sum, List.sum_singleton, wrapInt_of_isInt hx]
  · rw [Sum_eq_wrapInt_sum, Sum_eq_wrapInt_sum, List.sum_append, List.sum_singleton, add_zero]

/-- C13 witness: `minInt` is a valid `int` and `Sum(minInt)` is `minInt`. -/
theorem C13_Sum_append_witness :
    IsInt (-9223372036854775808) ∧ Sum [-9223372036854775808] = -9223372036854775808 :=
  ⟨by decide, C13_Sum_append.2.1 (-9223372036854775808) (by decide)⟩

end variadic

/-! ## The printed list does not determine the items -/

namespace variadic

theorem PrintItems_of_joined (label : String) (items : List String) (joined : String)
    (h : ", ".intercalate items = joined) (out : Stdout) :
    PrintItems label items out
      = Result.ok () (out ++ (label ++ (": [" ++ joined ++ "]\n"))) := by
  rw [PrintItems_writes label items out, h]
  simp only [String.append_assoc]
  rfl

/-- C14: the text written by `PrintItems` does not determine its item list: for
every label, no items and the single empty item both write `label: []`, and the
single item `a, b` and the two items `a`, `b` both write `label: [a, b]`; so for
the label `L` there are two different item sequences with identical output. -/
theorem C14_PrintItems_not_injective :
    (∃ (label : String) (items1 items2 : List String), items1 ≠ items2 ∧
        ∀ out : Stdout, PrintItems label items1 out = PrintItems label items2 out) ∧
      ([] : List String) ≠ [""] ∧
      (∀ (label : String) (out : Stdout),
        PrintItems label [] out = Result.ok () (out ++ (label ++ ": []\n")) ∧
        PrintItems label [""] out = Result.ok () (out ++ (label ++ ": []\n"))) ∧
      ["a, b"] ≠ ["a", "b"] ∧
      (∀ (label : String) (out : Stdout),
        PrintItems label ["a, b"] out = Result.ok () (out ++ (label ++ ": [a, b]\n")) ∧
        PrintItems label ["a", "b"] out = Result.ok () (out ++ (label ++ ": [a, b]\n"))) ∧
      PrintItems "L" [] "" = Result.ok () "L: []\n" ∧
      PrintItems "L" [""] "" = Result.ok () "L: []\n" ∧
      PrintItems "L" ["a, b"] "" = Result.ok () "L: [a, b]\n" ∧
      PrintItems "L" ["a", "b"] "" = Result.ok () "L: [a, b]\n" := by
  have h0 : ∀ (label : String) (out : Stdout),
      PrintItems label [] out = Result.ok () (out ++ (label ++ ": []\n")) :=
    fun label out => PrintItems_of_joined label [] "" rfl out
  have h1 : ∀ (label : String) (out : Stdout),
      PrintItems label [""] out = Result.ok () (out ++ (label ++ ": []\n")) :=
    fun label out => PrintItems_of_joined label [""] "" rfl out
  have h2 : ∀ (label : String) (out : Stdout),
      PrintItems label ["a, b"] out = Result.ok () (out ++ (label ++ ": [a, b]\n")) :=
    fun label out => PrintItems_of_joined label ["a, b"] "a, b" rfl out
  have h3 : ∀ (label : String) (out : Stdout),
      PrintItems label ["a", "b"] out = Result.ok () (out ++ (label ++ ": [a, b]\n")) :=
    fun label out => PrintItems_of_joined label ["a", "b"] "a, b" rfl out
  refine ⟨⟨"L", [], [""], by decide, fun out => ?_⟩, by decide, fun label out => ⟨h0 label out, h1 label out⟩,
    by decide, fun label out => ⟨h2 label out, h3 label out⟩, rfl, rfl, rfl, rfl⟩
  rw [h0, h1]

end variadic
